import Mathlib

/-!
Shallow embedding of the feishu-chatgpt-bot core (src/app.js, with the
earlier variant src/unnamed/part_000 where the claims cite it): the
conversation store (`buildConversation` / `saveConversation` /
`clearConversation`), the command router (`cmdProcess` / `handleReply`),
the webhook admission gate, and the audio branch, modelled as pure
functions over explicit state.  Message text is modelled as `List Char`
(one element per UTF-16 code unit of the JS string for the BMP characters
used here, so JS `.length` is `List.length`).
-/

namespace FeishuBot

/-! ### JS string primitives used by the source -/

/-- JS `String.prototype.trim` (ASCII whitespace suffices for the texts
considered here): drop whitespace from both ends. -/
def jsTrim (s : List Char) : List Char :=
  ((s.dropWhile Char.isWhitespace).reverse.dropWhile Char.isWhitespace).reverse

/-- JS `String.prototype.startsWith`. -/
def jsStartsWith (s p : List Char) : Bool :=
  p.isPrefixOf s

/-- JS `String.prototype.replace` with a string pattern and empty
replacement: remove only the FIRST occurrence of `pat`; if `pat` does not
occur, the string is unchanged.  (The empty-pattern corner of JS is
irrelevant here: the source only ever uses the nonempty pattern
"@_user_1".) -/
def jsReplaceFirst (s pat : List Char) : List Char :=
  match s with
  | [] => []
  | c :: rest =>
    if pat.isPrefixOf (c :: rest) then (c :: rest).drop pat.length
    else c :: jsReplaceFirst rest pat

/-! ### Conversation store (src/app.js lines 42–100)

`sessions` is the in-memory map from sessionId to ordered history; we
model it as an association list with first-match lookup. -/

inductive Role where
  | user
  | assistant
deriving DecidableEq, Repr

structure Turn where
  role : Role
  content : List Char
deriving DecidableEq, Repr

abbrev History := List Turn

abbrev Store := List (String × History)

def lookupSession (sessions : Store) (sessionId : String) : Option History :=
  match sessions with
  | [] => none
  | (k, h) :: rest => if k = sessionId then some h else lookupSession rest sessionId

def setSession (sessions : Store) (sessionId : String) (h : History) : Store :=
  match sessions with
  | [] => [(sessionId, h)]
  | (k, h0) :: rest =>
    if k = sessionId then (k, h) :: rest else (k, h0) :: setSession rest sessionId h

def removeSession (sessions : Store) (sessionId : String) : Store :=
  match sessions with
  | [] => []
  | (k, h0) :: rest =>
    if k = sessionId then removeSession rest sessionId
    else (k, h0) :: removeSession rest sessionId

/-- The total estimated size of a history, as the source computes it:
`history.reduce((acc, msg) => acc + msg.content.length, 0)`. -/
def totalSize (h : History) : Nat :=
  (h.map (fun t => t.content.length)).sum

/-- The `while (totalSize > OPENAI_MAX_TOKEN) history.shift()` loop of
`saveConversation`: repeatedly drop the oldest Turn while the total size
exceeds the ceiling.  (On the empty history the total is 0, so the JS loop
exits; the base case matches.) -/
def trimLoop (maxToken : Nat) : History → History
  | [] => []
  | t :: rest =>
    if totalSize (t :: rest) > maxToken then trimLoop maxToken rest
    else t :: rest

/-- Embedding of `buildConversation(sessionId, question)` (src/app.js
lines 76–81).  JS takes `sessions[sessionId] || []` and pushes a user turn onto it.  When
the session exists, the push mutates the array stored in `sessions`; when
it is absent, the push lands on a fresh array that is never assigned back,
so the store is unchanged.  Returns (new store, returned history). -/
def buildConversation (sessions : Store) (sessionId : String) (question : List Char) :
    Store × History :=
  match lookupSession sessions sessionId with
  | some h =>
    let h' := h ++ [⟨Role.user, question⟩]
    (setSession sessions sessionId h', h')
  | none => (sessions, [⟨Role.user, question⟩])

/-- Embedding of `saveConversation(sessionId, question, answer)`
(src/app.js lines 84–95): push an assistant turn onto `sessions[sessionId] || []`, store it,
then trim oldest-first while over the ceiling (the JS `shift` loop mutates
the stored array, so the trimmed history is what remains stored). -/
def saveConversation (maxToken : Nat) (sessions : Store) (sessionId : String)
    (answer : List Char) : Store :=
  let history := (lookupSession sessions sessionId).getD []
  let history := history ++ [⟨Role.assistant, answer⟩]
  setSession sessions sessionId (trimLoop maxToken history)

/-- Embedding of `clearConversation(sessionId)` (src/app.js lines
98–100): `delete sessions[sessionId]`. -/
def clearConversation (sessions : Store) (sessionId : String) : Store :=
  removeSession sessions sessionId

/-! ### Command router (src/app.js lines 103–123 and 188–193)

The source has no separate router function: the routing decision is the
branch structure of `handleReply` (outer check for the "/" prefix) and
`cmdProcess` (the "/image" test, then the switch on "/help" / "/clear" /
default).  `route` records exactly that branch structure as a pure
function on the trimmed action string. -/

inductive Outcome where
  | chatRequest (text : List Char)
  | imageRequest (prompt : List Char)
  | clearRequest
  | helpRequest
deriving DecidableEq, Repr

def route (action : List Char) : Outcome :=
  if jsStartsWith action "/".toList then
    if jsStartsWith action "/image".toList then
      Outcome.imageRequest (jsTrim (action.drop 6))
    else if action = "/help".toList then Outcome.helpRequest
    else if action = "/clear".toList then Outcome.clearRequest
    else Outcome.helpRequest
  else Outcome.chatRequest action

/-! ### Collaborators and effect traces

External collaborators (OpenAI chat / image / transcription, the Feishu
token endpoint, the file fetch, ffmpeg transcoding) are oracles whose
outcomes are fixed up front; `none` / `false` means the call fails
(rejects).  Every call a run issues is recorded in an `ExtCall` trace.
`Except` models a JS exception escaping the function under scrutiny: the
webhook handler has no top-level try/catch, so an `Except.error` at
dispatch level is an unhandled rejection. -/

inductive ExtCall where
  | chatCompletion (prompt : History)
  | imageGen (prompt : List Char)
  | getTenantToken
  | fileFetch
  | transcode
  | transcribe
  | sendReply (messageId : String) (content : List Char)
deriving DecidableEq, Repr

structure Collab where
  chatCompletion : History → Option (List Char)
  imageGen : List Char → Option (List Char)
  tenantToken : Option String
  fileFetch : Option Unit
  downloadOk : Bool
  transcodeOk : Bool
  transcription : Option (List Char)

def exceptIsOk : Except ε α → Bool
  | Except.ok _ => true
  | Except.error _ => false

/-- The fixed apology returned by `getOpenAIReply` when the chat backend
fails (src/app.js line 154). -/
def apologyText : List Char := "抱歉，我无法回答您的问题。".toList

/-- The fixed help text of `cmdHelp` (src/app.js lines 127–133). -/
def helpText : List Char :=
  "ChatGPT 指令使用指南\n\nUsage:\n/clear          清除上下文\n/help           获取更多帮助\n/image [提示词]  根据提示词生成图片\n".toList

/-- The fixed confirmation of `cmdClear` (src/app.js line 140). -/
def clearConfirmText : List Char := "✅ 记忆已清除".toList

/-- The fixed audio-failure reply of the audio catch blocks (src/app.js
lines 327 and 439). -/
def audioFailText : List Char := "抱歉，无法处理您的语音消息。".toList

/-- The fixed reply for unsupported message types (src/app.js lines 333
and 445). -/
def unsupportedText : List Char := "暂不支持处理此类型的消息。".toList

/-- Embedding of `getOpenAIReply(prompt)` (src/app.js lines 144–156): on
success the backend content is trimmed and returned; any failure is caught
and turned into the fixed apology string. -/
def getOpenAIReply (backendResult : Option (List Char)) : List Char :=
  match backendResult with
  | some content => jsTrim content
  | none => apologyText

/-- Embedding of `cmdProcess(cmdParams)` (src/app.js lines 103–123).
`getOpenaiImageUrl` (lines 46–53) has no try/catch, so a failing image
call rejects and the rejection escapes `cmdProcess`; the error value
carries the calls issued before the failure.  `reply` (lines 56–73)
swallows its own failures, so a send never rejects. -/
def cmdProcess (collab : Collab) (action : List Char) (sessionId messageId : String)
    (sessions : Store) : Except (List ExtCall) (Store × List ExtCall) :=
  if jsStartsWith action "/image".toList then
    let prompt := jsTrim (action.drop 6)
    match collab.imageGen prompt with
    | some url => Except.ok (sessions, [ExtCall.imageGen prompt, ExtCall.sendReply messageId url])
    | none => Except.error [ExtCall.imageGen prompt]
  else if action = "/help".toList then
    Except.ok (sessions, [ExtCall.sendReply messageId helpText])
  else if action = "/clear".toList then
    Except.ok (clearConversation sessions sessionId,
      [ExtCall.sendReply messageId clearConfirmText])
  else
    Except.ok (sessions, [ExtCall.sendReply messageId helpText])

/-- The self-mention marker stripped at src/app.js line 189. -/
def selfMentionMarker : List Char := "@_user_1".toList

/-- The question computed at src/app.js line 189:
`userInput.text.replace(@_user_1, <empty>).trim()`. -/
def stripSelfMention (text : List Char) : List Char :=
  jsTrim (jsReplaceFirst text selfMentionMarker)

/-- Embedding of `handleReply(userInput, sessionId, messageId)`
(src/app.js lines 188–200).  Returns the new store and the trace of
collaborator calls; an `Except.error` is a rejection escaping
`handleReply` (possible only through `cmdProcess`, i.e. image failure). -/
def handleReply (maxToken : Nat) (collab : Collab) (text : List Char)
    (sessionId messageId : String) (sessions : Store) :
    Except (List ExtCall) (Store × List ExtCall) :=
  let question := stripSelfMention text
  let action := jsTrim question
  if jsStartsWith action "/".toList then
    cmdProcess collab action sessionId messageId sessions
  else
    let built := buildConversation sessions sessionId question
    let answer := getOpenAIReply (collab.chatCompletion built.2)
    Except.ok (saveConversation maxToken built.1 sessionId answer,
      [ExtCall.chatCompletion built.2, ExtCall.sendReply messageId answer])

/-! ### Audio branch (src/app.js lines 253–329, duplicated at 365–441)

Temporary files are modelled as the list of file names currently present
on disk.  `createWriteStream` creates the download file as soon as the
fetch succeeds (before the download promise settles); ffmpeg `save`
produces the converted file only on success.  The whole branch sits in a
try/catch whose catch replies with the fixed audio-failure string and
removes nothing. -/

def audioFileName (messageId : String) : String :=
  "audio_" ++ messageId ++ ".mp3"

def convertedFileName (messageId : String) : String :=
  "audio_" ++ messageId ++ "_converted.mp3"

/-- The try block of the audio branch: each step either proceeds or
rejects; a rejection carries the files present and the calls issued so
far, for the catch block to take over.  The steps are, in source order:
token fetch (line 259, with the explicit throw on an undefined token),
file fetch (line 273), download (lines 282–289), transcoding (lines
293–305), transcription (lines 308–311), `handleReply` on the transcribed
text (line 318), and finally the two `unlinkSync` calls (lines 321–322),
executed only on this success path. -/
def audioTry (maxToken : Nat) (collab : Collab) (sessionId messageId : String)
    (sessions : Store) (files : List String) :
    Except (List String × List ExtCall) (Store × List String × List ExtCall) :=
  match collab.tenantToken with
  | none => Except.error (files, [ExtCall.getTenantToken])
  | some _ =>
    match collab.fileFetch with
    | none => Except.error (files, [ExtCall.getTenantToken, ExtCall.fileFetch])
    | some _ =>
      let files1 := audioFileName messageId :: files
      if !collab.downloadOk then
        Except.error (files1, [ExtCall.getTenantToken, ExtCall.fileFetch])
      else if !collab.transcodeOk then
        Except.error (files1,
          [ExtCall.getTenantToken, ExtCall.fileFetch, ExtCall.transcode])
      else
        let files2 := convertedFileName messageId :: files1
        let prefixCalls :=
          [ExtCall.getTenantToken, ExtCall.fileFetch, ExtCall.transcode,
            ExtCall.transcribe]
        match collab.transcription with
        | none =>
          Except.error (files2,
            [ExtCall.getTenantToken, ExtCall.fileFetch, ExtCall.transcode,
              ExtCall.transcribe])
        | some text =>
          match handleReply maxToken collab text sessionId messageId sessions with
          | Except.error calls => Except.error (files2, prefixCalls ++ calls)
          | Except.ok (s2, calls) =>
            let files3 :=
              (files2.erase (audioFileName messageId)).erase
                (convertedFileName messageId)
            Except.ok (s2, files3, prefixCalls ++ calls)

/-- The audio branch with its catch block: a rejection anywhere in the try
block is caught, the fixed audio-failure reply is sent, and the files
present at the moment of failure stay on disk. -/
def handleAudio (maxToken : Nat) (collab : Collab) (sessionId messageId : String)
    (sessions : Store) (files : List String) :
    Store × List String × List ExtCall :=
  match audioTry maxToken collab sessionId messageId sessions files with
  | Except.ok r => r
  | Except.error (files2, calls) =>
    (sessions, files2, calls ++ [ExtCall.sendReply messageId audioFailText])

/-! ### Webhook admission gate and dispatcher (src/app.js lines 203–453)

The gate is the sequence of early returns inside the
`im.message.receive_v1` branch, in source order: the bot-sender check
(lines 228–232), the staleness check (lines 234–241), then the chat-type
split with the group mention checks (lines 339–355). -/

structure Mention where
  name : String
  id : String
deriving DecidableEq, Repr

structure Event where
  eventId : String
  messageId : String
  chatId : String
  senderUserId : String
  senderIsBot : Bool
  createTime : Int
  chatType : String
  messageType : String
  mentions : Option (List Mention)
  textContent : List Char
deriving DecidableEq, Repr

inductive Reason where
  | selfMessage
  | stale
  | unaddressed
deriving DecidableEq, Repr

inductive Decision where
  | process
  | ignore (r : Reason)
  | unhandled
deriving DecidableEq, Repr

/-- The staleness threshold of src/app.js line 238: 10000 ms. -/
def stalenessThresholdMs : Int := 10000

/-- The admission decision of the webhook handler for a message event
(src/app.js lines 220–355): bot-sender check first, then staleness, then
the chat-type split; a group message is admitted only when some mention
carries the configured bot name or the sender's own user id. -/
def webhookGate (botname : String) (now : Int) (e : Event) : Decision :=
  if e.senderIsBot then Decision.ignore Reason.selfMessage
  else if now - e.createTime > stalenessThresholdMs then Decision.ignore Reason.stale
  else if e.chatType = "p2p" then Decision.process
  else if e.chatType = "group" then
    match e.mentions with
    | none => Decision.ignore Reason.unaddressed
    | some l =>
      if l.isEmpty then Decision.ignore Reason.unaddressed
      else if l.any (fun m => m.name == botname || m.id == e.senderUserId) then
        Decision.process
      else Decision.ignore Reason.unaddressed
  else Decision.unhandled

/-- The whole message-event handling of the webhook (src/app.js lines
220–453): gate first; an admitted event is then dispatched on its message
type (text via `handleReply`, audio via `handleAudio`, otherwise the fixed
unsupported-type reply).  Result: HTTP body code, store, files on disk,
call trace; `Except.error` is a rejection escaping the handler (the
handler has no top-level catch). -/
def webhookDispatch (botname : String) (maxToken : Nat) (collab : Collab)
    (now : Int) (e : Event) (sessions : Store) (files : List String) :
    Except (List ExtCall) (Nat × Store × List String × List ExtCall) :=
  let sessionId := e.chatId ++ e.senderUserId
  match webhookGate botname now e with
  | Decision.ignore _ => Except.ok (0, sessions, files, [])
  | Decision.unhandled => Except.ok (2, sessions, files, [])
  | Decision.process =>
    if e.messageType = "text" then
      match handleReply maxToken collab e.textContent sessionId e.messageId sessions with
      | Except.ok (s2, calls) => Except.ok (0, s2, files, calls)
      | Except.error calls => Except.error calls
    else if e.messageType = "audio" then
      let r := handleAudio maxToken collab sessionId e.messageId sessions files
      Except.ok (0, r.1, r.2.1, r.2.2)
    else
      Except.ok (0, sessions, files, [ExtCall.sendReply e.messageId unsupportedText])

/-! ### The deduplicating gate of the earlier variant
(src/unnamed/part_000 lines 201–250)

This variant keeps an `eventsProcessed` set: an already-seen eventId is
skipped with code 1, and a fresh eventId is added to the set right after
the check, before any chat-type handling or collaborator call.  It has no
bot-sender or staleness check; the group mention test is on the bot name
only. -/

inductive DecisionV0 where
  | process
  | ignoreDuplicate
  | ignoreUnaddressed
  | unhandled
deriving DecidableEq, Repr

def webhookGateV0 (botname : String) (processed : List String) (e : Event) :
    DecisionV0 × List String :=
  if e.eventId ∈ processed then (DecisionV0.ignoreDuplicate, processed)
  else
    let processed2 := e.eventId :: processed
    if e.chatType = "p2p" then (DecisionV0.process, processed2)
    else if e.chatType = "group" then
      match e.mentions with
      | none => (DecisionV0.ignoreUnaddressed, processed2)
      | some l =>
        if l.isEmpty then (DecisionV0.ignoreUnaddressed, processed2)
        else if l.any (fun m => m.name == botname) then
          (DecisionV0.process, processed2)
        else (DecisionV0.ignoreUnaddressed, processed2)
    else (DecisionV0.unhandled, processed2)

/-! ### Store lemmas -/

theorem lookupSession_setSession_self (sessions : Store) (k : String) (h : History) :
    lookupSession (setSession sessions k h) k = some h := by
  induction sessions with
  | nil => simp [setSession, lookupSession]
  | cons p rest ih =>
    obtain ⟨k0, h0⟩ := p
    simp only [setSession]
    split
    · next heq => simp [lookupSession, heq]
    · next hne => simpa [lookupSession, hne] using ih

theorem setSession_setSession (sessions : Store) (k : String) (h1 h2 : History) :
    setSession (setSession sessions k h1) k h2 = setSession sessions k h2 := by
  induction sessions with
  | nil => simp [setSession]
  | cons p rest ih =>
    obtain ⟨k0, h0⟩ := p
    simp only [setSession]
    split
    · next heq => simp [setSession, heq]
    · next hne => simp [setSession, hne, ih]

/-! ### Trim-loop lemmas -/

theorem trimLoop_totalSize_le (maxToken : Nat) (h : History) :
    totalSize (trimLoop maxToken h) ≤ maxToken := by
  induction h with
  | nil => simp [trimLoop, totalSize]
  | cons t rest ih =>
    simp only [trimLoop]
    split
    · exact ih
    · omega

theorem trimLoop_suffix (maxToken : Nat) (h : History) :
    trimLoop maxToken h <:+ h := by
  induction h with
  | nil => simp [trimLoop]
  | cons t rest ih =>
    simp only [trimLoop]
    split
    · exact ih.trans (List.suffix_cons t rest)
    · exact List.suffix_refl _

theorem trimLoop_eq_of_le (maxToken : Nat) (h : History)
    (hle : totalSize h ≤ maxToken) : trimLoop maxToken h = h := by
  cases h with
  | nil => rfl
  | cons t rest =>
    simp only [trimLoop]
    rw [if_neg (by omega)]

/-! ### C1 — budget invariant of `saveConversation` -/

/-- C1, counterexample.  The claim states that when a single Turn alone
exceeds the ceiling, that one Turn remains in the history (the trim never
empties the history).  The code disagrees: with ceiling 4, saving the
single assistant Turn "hello" (size 5 > 4) leaves the stored history
EMPTY — the `while` loop also removes the last remaining Turn. -/
theorem trim_can_empty_history :
    "hello".toList.length > 4 ∧
    lookupSession (saveConversation 4 [] "s" "hello".toList) "s" = some [] := by
  decide

/-- C1, amended.  After `saveConversation` the stored history always has
total estimated size at most the ceiling (even when that forces the
history to become empty), and the trimmed history is a suffix of the
history after the assistant append: whole Turns are removed from the
oldest end only, one at a time, never truncated within a Turn. -/
theorem saveConversation_budget_and_oldest_first (maxToken : Nat)
    (sessions : Store) (sessionId : String) (answer : List Char) :
    totalSize ((lookupSession (saveConversation maxToken sessions sessionId answer)
        sessionId).getD []) ≤ maxToken ∧
    (lookupSession (saveConversation maxToken sessions sessionId answer)
        sessionId).getD [] <:+
      ((lookupSession sessions sessionId).getD [] ++ [⟨Role.assistant, answer⟩]) := by
  unfold saveConversation
  rw [lookupSession_setSession_self]
  exact ⟨trimLoop_totalSize_le _ _, trimLoop_suffix _ _⟩

/-! ### C7 — `buildConversation` on an absent session -/

/-- C7: the claim says `buildConversation` creates the Session in the
store if absent, so that `clear` followed by `appendUser` stores a
one-Turn history.  Evaluating the code at that input: after clearing
"s1", `buildConversation` returns the one-Turn history but leaves the
store unchanged — `sessions[sessionId]` is never assigned (the JS push
lands on a fresh array that is not stored), so the store still has no
entry for "s1". -/
theorem buildConversation_absent_session_not_stored :
    clearConversation [("s1", [⟨Role.user, "old".toList⟩])] "s1" = [] ∧
    buildConversation
        (clearConversation [("s1", [⟨Role.user, "old".toList⟩])] "s1") "s1"
        "hi".toList = ([], [⟨Role.user, "hi".toList⟩]) ∧
    lookupSession (buildConversation [] "s1" "hi".toList).1 "s1" = none := by
  decide

/-! ### C8 — command routing -/

/-- C8: the router maps "/clear" to ClearRequest, "hello" to
ChatRequest "hello", "/image cat" to ImageRequest "cat", the unrecognized
"/foo" to HelpRequest, and any text not starting with "/" to a
ChatRequest carrying that text.  (`route` is a pure function, so the
router itself has no side effects.) -/
theorem route_command_dispatch :
    route "/clear".toList = Outcome.clearRequest ∧
    route "hello".toList = Outcome.chatRequest "hello".toList ∧
    route "/image cat".toList = Outcome.imageRequest "cat".toList ∧
    route "/foo".toList = Outcome.helpRequest ∧
    ∀ t : List Char, jsStartsWith t "/".toList = false →
      route t = Outcome.chatRequest t := by
  refine ⟨by decide, by decide, by decide, by decide, ?_⟩
  intro t ht
  have ht2 : jsStartsWith t ['/'] = false := ht
  simp [route, ht2]

/-- C8, witness: the routing facts instantiated, the free-text case at
the concrete non-command input "xy". -/
theorem route_command_dispatch_witness :
    route "/clear".toList = Outcome.clearRequest ∧
    route "xy".toList = Outcome.chatRequest "xy".toList :=
  ⟨route_command_dispatch.1,
    route_command_dispatch.2.2.2.2 "xy".toList (by decide)⟩

/-! ### C9 — the self-mention marker is stripped once -/

/-- JS `replace` removes exactly the first occurrence: if `pat` occurs at
position `a.length` and at no earlier position, everything after that
occurrence (including any later occurrences of `pat`) is kept verbatim. -/
theorem jsReplaceFirst_append (a rest pat : List Char) (hne : pat ≠ [])
    (hfirst : ∀ i, i < a.length →
      pat.isPrefixOf ((a ++ (pat ++ rest)).drop i) = false) :
    jsReplaceFirst (a ++ (pat ++ rest)) pat = a ++ rest := by
  induction a with
  | nil =>
    cases pat with
    | nil => exact absurd rfl hne
    | cons p pr =>
      have hpre : (p :: pr).isPrefixOf (p :: (pr ++ rest)) = true := by
        rw [List.isPrefixOf_iff_prefix, ← List.cons_append]
        exact (p :: pr).prefix_append rest
      show jsReplaceFirst (p :: (pr ++ rest)) (p :: pr) = rest
      simp only [jsReplaceFirst, hpre, if_true]
      rw [← List.cons_append, List.drop_left]
  | cons c a2 ih =>
    have h0 : pat.isPrefixOf (c :: (a2 ++ (pat ++ rest))) = false :=
      hfirst 0 (by simp)
    show jsReplaceFirst (c :: (a2 ++ (pat ++ rest))) pat = c :: (a2 ++ rest)
    simp only [jsReplaceFirst, h0, Bool.false_eq_true, if_false]
    exact congrArg (c :: ·) (ih fun i hi => hfirst (i + 1) (Nat.succ_lt_succ hi))

/-- C9: the question computed by `handleReply` removes only the FIRST
occurrence of the marker "@_user_1"; the remainder `rest` — which may
itself contain further marker occurrences — is kept verbatim (up to the
final trim), and this single question value is what flows into routing
and `buildConversation`. -/
theorem stripSelfMention_removes_only_first (a rest : List Char)
    (hfirst : ∀ i, i < a.length →
      selfMentionMarker.isPrefixOf
        ((a ++ (selfMentionMarker ++ rest)).drop i) = false) :
    stripSelfMention (a ++ (selfMentionMarker ++ rest)) = jsTrim (a ++ rest) := by
  unfold stripSelfMention
  rw [jsReplaceFirst_append a rest selfMentionMarker (by decide) hfirst]

/-- C9, witness: a text containing the marker twice keeps the second
occurrence in the stripped question. -/
theorem stripSelfMention_removes_only_first_witness :
    stripSelfMention ("x".toList ++ (selfMentionMarker ++ "y@_user_1z".toList))
      = jsTrim ("x".toList ++ "y@_user_1z".toList) :=
  stripSelfMention_removes_only_first "x".toList "y@_user_1z".toList (by decide)

/-! ### C2 — duplicate events are admitted at most once (part_000 gate) -/

/-- C2: on the deduplicating gate of src/unnamed/part_000, submitting a
fresh eventId records it in the processed set (this happens in the gate,
before any chat handling or collaborator call), the first delivery is not
rejected as a duplicate, and a second delivery with the same eventId —
even with every other field different — is rejected as a duplicate, so
`Process` happens at most once per eventId. -/
theorem eventGate_duplicate_admitted_once (botname : String)
    (processed : List String) (e e2 : Event)
    (hid : e2.eventId = e.eventId)
    (hfresh : e.eventId ∉ processed) :
    e.eventId ∈ (webhookGateV0 botname processed e).2 ∧
    (webhookGateV0 botname processed e).1 ≠ DecisionV0.ignoreDuplicate ∧
    (webhookGateV0 botname (webhookGateV0 botname processed e).2 e2).1
      = DecisionV0.ignoreDuplicate := by
  have hsnd : (webhookGateV0 botname processed e).2 = e.eventId :: processed := by
    unfold webhookGateV0
    rw [if_neg hfresh]
    repeat' split
    all_goals rfl
  have hfst : (webhookGateV0 botname processed e).1 ≠ DecisionV0.ignoreDuplicate := by
    unfold webhookGateV0
    rw [if_neg hfresh]
    repeat' split
    all_goals simp
  refine ⟨by rw [hsnd]; exact List.mem_cons_self _ _, hfst, ?_⟩
  rw [hsnd]
  unfold webhookGateV0
  rw [if_pos (by rw [hid]; exact List.mem_cons_self _ _)]

/-- A first delivery of eventId "e1" (a direct chat message). -/
def eventFirst : Event :=
  { eventId := "e1", messageId := "m1", chatId := "c", senderUserId := "u",
    senderIsBot := false, createTime := 0, chatType := "p2p",
    messageType := "text", mentions := none, textContent := "hi".toList }

/-- A second delivery of eventId "e1" with different other fields. -/
def eventRedelivery : Event :=
  { eventId := "e1", messageId := "m2", chatId := "c", senderUserId := "u",
    senderIsBot := false, createTime := 5000, chatType := "p2p",
    messageType := "text", mentions := none, textContent := "hi again".toList }

/-- C2, witness: the two concrete deliveries of eventId "e1". -/
theorem eventGate_duplicate_admitted_once_witness :
    "e1" ∈ (webhookGateV0 "bot" [] eventFirst).2 ∧
    (webhookGateV0 "bot" [] eventFirst).1 ≠ DecisionV0.ignoreDuplicate ∧
    (webhookGateV0 "bot" (webhookGateV0 "bot" [] eventFirst).2 eventRedelivery).1
      = DecisionV0.ignoreDuplicate :=
  eventGate_duplicate_admitted_once "bot" [] eventFirst eventRedelivery rfl
    (by decide)

/-! ### C3 — does any error escape the dispatcher? -/

/-- A collaborator assignment on which every external call fails. -/
def collabAllFail : Collab :=
  { chatCompletion := fun _ => none, imageGen := fun _ => none,
    tenantToken := none, fileFetch := none, downloadOk := false,
    transcodeOk := false, transcription := none }

/-- A fresh, admissible direct-chat text event carrying "/image cat". -/
def imageEvent : Event :=
  { eventId := "e1", messageId := "m1", chatId := "c", senderUserId := "u",
    senderIsBot := false, createTime := 0, chatType := "p2p",
    messageType := "text", mentions := none,
    textContent := "/image cat".toList }

/-- C3, counterexample.  The claim says no error escapes the
event-handling entry point, and that an image-generation failure is
turned into a fixed failure string.  In the code `getOpenaiImageUrl` has
no try/catch and `cmdProcess` none either, so when the image collaborator
fails on "/image cat" the rejection escapes the whole webhook dispatch
(an unhandled rejection), with no failure-string reply. -/
theorem imageFailure_escapes_dispatch :
    webhookDispatch "bot" 1024 collabAllFail 0 imageEvent [] [] =
      Except.error [ExtCall.imageGen "cat".toList] := rfl

theorem cmdProcess_ok (collab : Collab) (action : List Char)
    (sessionId messageId : String) (sessions : Store)
    (himg : ∀ p, (collab.imageGen p).isSome = true) :
    exceptIsOk (cmdProcess collab action sessionId messageId sessions) = true := by
  unfold cmdProcess
  split
  · dsimp only
    have hs := himg (jsTrim (action.drop 6))
    split
    · rfl
    · next hnone => rw [hnone] at hs; exact absurd hs (by simp)
  · split
    · rfl
    · split <;> rfl

theorem handleReply_ok (maxToken : Nat) (collab : Collab) (text : List Char)
    (sessionId messageId : String) (sessions : Store)
    (himg : ∀ p, (collab.imageGen p).isSome = true) :
    exceptIsOk (handleReply maxToken collab text sessionId messageId sessions)
      = true := by
  unfold handleReply
  dsimp only
  split
  · exact cmdProcess_ok collab _ sessionId messageId sessions himg
  · rfl

/-- C3, amended.  Every branch of the dispatcher terminates in a reply or
a swallowed, logged failure EXCEPT the image-generation path: chat
failures become the fixed apology, audio failures are caught with the
fixed audio-failure reply, and reply-delivery failures are swallowed, so
whenever the image collaborator succeeds, no error escapes the dispatch;
an image-generation failure, however, escapes uncaught (see the
counterexample). -/
theorem dispatch_ok_when_imageGen_succeeds (botname : String) (maxToken : Nat)
    (collab : Collab) (now : Int) (e : Event) (sessions : Store)
    (files : List String)
    (himg : ∀ p, (collab.imageGen p).isSome = true) :
    exceptIsOk (webhookDispatch botname maxToken collab now e sessions files)
      = true := by
  unfold webhookDispatch
  dsimp only
  split
  · rfl
  · rfl
  · split
    · split
      · rfl
      · next heq =>
        have hok := handleReply_ok maxToken collab e.textContent
          (e.chatId ++ e.senderUserId) e.messageId sessions himg
        rw [heq] at hok
        exact absurd hok (by simp [exceptIsOk])
    · split <;> rfl

/-- A collaborator assignment on which image generation always succeeds
(echoing the prompt as the URL) and everything else fails. -/
def collabImageOk : Collab :=
  { chatCompletion := fun _ => none, imageGen := fun p => some p,
    tenantToken := none, fileFetch := none, downloadOk := false,
    transcodeOk := false, transcription := none }

/-- C3, witness: with a succeeding image collaborator, dispatching the
"/image cat" event does not escape. -/
theorem dispatch_ok_when_imageGen_succeeds_witness :
    exceptIsOk (webhookDispatch "bot" 1024 collabImageOk 0 imageEvent [] [])
      = true :=
  dispatch_ok_when_imageGen_succeeds "bot" 1024 collabImageOk 0 imageEvent [] []
    (fun _ => rfl)

/-! ### C4 — group addressing -/

/-- A fresh group event whose sole mention is the sender ("alice",
user id "u1") — not the bot. -/
def selfMentionGroupEvent : Event :=
  { eventId := "e4", messageId := "m4", chatId := "c", senderUserId := "u1",
    senderIsBot := false, createTime := 0, chatType := "group",
    messageType := "text", mentions := some [⟨"alice", "u1"⟩],
    textContent := "hi".toList }

/-- C4, counterexample.  The claim says a group event whose mentions do
not contain the configured bot identity is Ignore(unaddressed), and no
other mention admits the event.  The code also admits a group event when
some mention carries the SENDER's own user id: with bot name "helper",
the event whose only mention is ("alice", "u1") from sender "u1" is
admitted. -/
theorem group_admit_by_sender_mention :
    selfMentionGroupEvent.mentions = some [⟨"alice", "u1"⟩] ∧
    ("alice" : String) ≠ "helper" ∧
    webhookGate "helper" 0 selfMentionGroupEvent = Decision.process := by
  decide

/-- C4, amended.  For a fresh non-bot group event: the decision is either
`Process` or `Ignore(unaddressed)`, and the event is admitted exactly
when its mentions field is present and some mention carries the bot name
OR the sender's own user id.  In particular absent or empty mentions are
always `Ignore(unaddressed)`, and an event mentioning the bot identity is
never rejected for addressing. -/
theorem group_admission_characterization (botname : String) (now : Int)
    (e : Event)
    (hbot : e.senderIsBot = false)
    (hfresh : ¬ (now - e.createTime > stalenessThresholdMs))
    (hgroup : e.chatType = "group") :
    (webhookGate botname now e = Decision.process ∨
      webhookGate botname now e = Decision.ignore Reason.unaddressed) ∧
    (webhookGate botname now e = Decision.process ↔
      ∃ l, e.mentions = some l ∧
        l.any (fun m => m.name == botname || m.id == e.senderUserId) = true) := by
  have hgate : webhookGate botname now e =
      (match e.mentions with
       | none => Decision.ignore Reason.unaddressed
       | some l =>
         if l.isEmpty then Decision.ignore Reason.unaddressed
         else if l.any (fun m => m.name == botname || m.id == e.senderUserId)
           then Decision.process
         else Decision.ignore Reason.unaddressed) := by
    unfold webhookGate
    rw [hbot, if_neg Bool.false_ne_true, if_neg hfresh, hgroup,
      if_neg (by decide : ¬ (("group" : String) = "p2p")), if_pos rfl]
  rw [hgate]
  cases hm : e.mentions with
  | none => simp
  | some l =>
    dsimp only
    cases hemp : l.isEmpty with
    | true =>
      have hl : l = [] := List.isEmpty_iff.mp hemp
      subst hl
      simp
    | false =>
      cases hany : l.any (fun m => m.name == botname || m.id == e.senderUserId) with
      | true =>
        rw [if_neg Bool.false_ne_true, if_pos rfl]
        exact ⟨Or.inl rfl, fun _ => ⟨l, rfl, hany⟩, fun _ => rfl⟩
      | false =>
        rw [if_neg Bool.false_ne_true, if_neg Bool.false_ne_true]
        refine ⟨Or.inr rfl, fun hcon => absurd hcon (by simp), ?_⟩
        rintro ⟨l2, hl2, hany2⟩
        rw [Option.some.injEq] at hl2
        subst hl2
        rw [hany] at hany2
        exact absurd hany2 (by simp)

/-- A fresh group event that mentions the bot ("bot", id "b9"). -/
def botMentionGroupEvent : Event :=
  { eventId := "e4b", messageId := "m4b", chatId := "c", senderUserId := "u1",
    senderIsBot := false, createTime := 0, chatType := "group",
    messageType := "text", mentions := some [⟨"bot", "b9"⟩],
    textContent := "hi".toList }

/-- C4, witness: the event mentioning the bot name is admitted. -/
theorem group_admission_characterization_witness :
    webhookGate "bot" 0 botMentionGroupEvent = Decision.process :=
  (group_admission_characterization "bot" 0 botMentionGroupEvent rfl
      (by decide) rfl).2.mpr ⟨[⟨"bot", "b9"⟩], rfl, by decide⟩

/-! ### C5 — temporary files of the audio pipeline -/

/-- A collaborator assignment: token, fetch and download succeed,
transcoding fails. -/
def collabTranscodeFail : Collab :=
  { chatCompletion := fun _ => none, imageGen := fun _ => none,
    tenantToken := some "t", fileFetch := some (), downloadOk := true,
    transcodeOk := false, transcription := none }

/-- C5, counterexample.  The claim says all temporary files are removed
on every exit path, in particular that the downloaded file is removed
when transcoding fails.  In the code the two `unlinkSync` calls are on
the success path only and the catch block removes nothing: when
transcoding fails, the downloaded file audio_m1.mp3 is still on disk
afterwards (while, as the claim also says, no transcription call was
attempted and the fixed audio-failure reply was sent). -/
theorem transcode_failure_leaks_download :
    handleAudio 1024 collabTranscodeFail "s" "m1" [] [] =
      ([], [audioFileName "m1"],
        [ExtCall.getTenantToken, ExtCall.fileFetch, ExtCall.transcode,
          ExtCall.sendReply "m1" audioFailText]) ∧
    audioFileName "m1" = "audio_m1.mp3" := ⟨rfl, rfl⟩

/-- C5, amended.  When transcoding fails (token, fetch and download
having succeeded), the session store is unchanged, NO transcription call
is attempted, the fixed audio-failure reply is emitted — but the
downloaded temporary file is NOT removed: it remains on disk.  Temporary
files are removed only on the success path. -/
theorem audio_transcode_failure_behavior (maxToken : Nat) (collab : Collab)
    (sessionId messageId : String) (sessions : Store) (files : List String)
    (htok : collab.tenantToken.isSome = true)
    (hfetch : collab.fileFetch.isSome = true)
    (hdl : collab.downloadOk = true)
    (htc : collab.transcodeOk = false) :
    handleAudio maxToken collab sessionId messageId sessions files =
      (sessions, audioFileName messageId :: files,
        [ExtCall.getTenantToken, ExtCall.fileFetch, ExtCall.transcode,
          ExtCall.sendReply messageId audioFailText]) := by
  obtain ⟨tk, htk⟩ := Option.isSome_iff_exists.mp htok
  obtain ⟨fu, hfu⟩ := Option.isSome_iff_exists.mp hfetch
  unfold handleAudio audioTry
  rw [htk, hfu]
  simp [hdl, htc]

/-- C5, witness: the amended behavior at the concrete failing
transcoding run. -/
theorem audio_transcode_failure_behavior_witness :
    handleAudio 1024 collabTranscodeFail "s" "m2" [] [] =
      ([], [audioFileName "m2"],
        [ExtCall.getTenantToken, ExtCall.fileFetch, ExtCall.transcode,
          ExtCall.sendReply "m2" audioFailText]) :=
  audio_transcode_failure_behavior 1024 collabTranscodeFail "s" "m2" [] []
    rfl rfl rfl rfl

/-! ### C6 — staleness -/

/-- A stale event sent by a bot. -/
def staleBotEvent : Event :=
  { eventId := "e6", messageId := "m6", chatId := "c", senderUserId := "u",
    senderIsBot := true, createTime := 0, chatType := "p2p",
    messageType := "text", mentions := none, textContent := "hi".toList }

/-- C6, counterexample.  The claim says an event older than the threshold
yields Ignore(stale) regardless of its other fields.  The bot-sender
check runs first: a stale event sent by a bot yields Ignore(self), not
Ignore(stale). -/
theorem stale_bot_event_not_ignored_stale :
    (20000 : Int) - staleBotEvent.createTime > stalenessThresholdMs ∧
    webhookGate "bot" 20000 staleBotEvent = Decision.ignore Reason.selfMessage ∧
    Decision.ignore Reason.selfMessage ≠ Decision.ignore Reason.stale := by
  decide

/-- C6, amended.  Every stale event whose sender is NOT a bot yields
Ignore(stale), regardless of its remaining fields (a stale bot-sent event
yields Ignore(self) instead, since the self check runs first); and the
staleness check short-circuits before any external collaborator call:
dispatching such an event issues an empty call trace and touches neither
the store nor the files. -/
theorem stale_nonbot_event_ignored_before_calls (botname : String)
    (maxToken : Nat) (collab : Collab) (now : Int) (e : Event)
    (sessions : Store) (files : List String)
    (hbot : e.senderIsBot = false)
    (hstale : now - e.createTime > stalenessThresholdMs) :
    webhookGate botname now e = Decision.ignore Reason.stale ∧
    webhookDispatch botname maxToken collab now e sessions files =
      Except.ok (0, sessions, files, []) := by
  have hgate : webhookGate botname now e = Decision.ignore Reason.stale := by
    unfold webhookGate
    rw [hbot, if_neg Bool.false_ne_true, if_pos hstale]
  refine ⟨hgate, ?_⟩
  unfold webhookDispatch
  rw [hgate]

/-- A stale event from a human sender. -/
def staleHumanEvent : Event :=
  { eventId := "e6b", messageId := "m6b", chatId := "c", senderUserId := "u",
    senderIsBot := false, createTime := 0, chatType := "p2p",
    messageType := "text", mentions := none, textContent := "hi".toList }

/-- C6, witness: the stale human-sent event is ignored as stale with no
collaborator call. -/
theorem stale_nonbot_event_ignored_before_calls_witness :
    webhookGate "bot" 20000 staleHumanEvent = Decision.ignore Reason.stale ∧
    webhookDispatch "bot" 1024 collabAllFail 20000 staleHumanEvent [] [] =
      Except.ok (0, [], [], []) :=
  stale_nonbot_event_ignored_before_calls "bot" 1024 collabAllFail 20000
    staleHumanEvent [] [] rfl (by decide)

/-! ### C10 — backend failure is kept as conversation context -/

/-- C10: for an existing session, when the chat backend fails, nothing is
rolled back: `handleReply` succeeds, the user Turn appended by
`buildConversation` stays in the stored history, and the fixed apology
returned by `getOpenAIReply` is appended as the assistant Turn by
`saveConversation` (shown here without trimming, i.e. when the result
fits the budget), so the failure becomes part of the session context;
the apology is also what is replied. -/
theorem backend_failure_kept_in_history (maxToken : Nat) (collab : Collab)
    (text : List Char) (sessionId messageId : String) (sessions : Store)
    (h : History)
    (hsess : lookupSession sessions sessionId = some h)
    (hchat : jsStartsWith (jsTrim (stripSelfMention text)) "/".toList = false)
    (hfail : collab.chatCompletion
      (h ++ [⟨Role.user, stripSelfMention text⟩]) = none)
    (hsize : totalSize (h ++ [⟨Role.user, stripSelfMention text⟩,
      ⟨Role.assistant, apologyText⟩]) ≤ maxToken) :
    handleReply maxToken collab text sessionId messageId sessions =
      Except.ok (setSession sessions sessionId
          (h ++ [⟨Role.user, stripSelfMention text⟩,
            ⟨Role.assistant, apologyText⟩]),
        [ExtCall.chatCompletion (h ++ [⟨Role.user, stripSelfMention text⟩]),
          ExtCall.sendReply messageId apologyText]) := by
  unfold handleReply
  dsimp only
  rw [if_neg (by rw [hchat]; exact Bool.false_ne_true)]
  unfold buildConversation
  rw [hsess]
  dsimp only
  rw [hfail]
  unfold getOpenAIReply saveConversation
  rw [lookupSession_setSession_self]
  dsimp only [Option.getD_some]
  rw [List.append_assoc]
  rw [trimLoop_eq_of_le maxToken _ (by simpa using hsize)]
  rw [setSession_setSession]
  simp

/-- A collaborator assignment whose chat backend always fails. -/
def collabChatFail : Collab :=
  { chatCompletion := fun _ => none, imageGen := fun _ => none,
    tenantToken := none, fileFetch := none, downloadOk := false,
    transcodeOk := false, transcription := none }

/-- C10, witness: the session "s" exists (with empty history); after a
failed backend call on "hi", the stored history is the user Turn followed
by the apology Turn. -/
theorem backend_failure_kept_in_history_witness :
    handleReply 1024 collabChatFail "hi".toList "s" "m" [("s", [])] =
      Except.ok (setSession [("s", [])] "s"
          ([] ++ [⟨Role.user, stripSelfMention "hi".toList⟩,
            ⟨Role.assistant, apologyText⟩]),
        [ExtCall.chatCompletion
            ([] ++ [⟨Role.user, stripSelfMention "hi".toList⟩]),
          ExtCall.sendReply "m" apologyText]) :=
  backend_failure_kept_in_history 1024 collabChatFail "hi".toList "s" "m"
    [("s", [])] [] rfl (by decide) rfl (by decide)

end FeishuBot
